import Mathlib

/-!
Shallow embedding of `src/potpourri.cpp`, a single-file demonstration
program: an input-length validator, a fixed-size vector template `Vec<T, N>`
with element-wise arithmetic, an ownership demonstration over a small
polymorphic hierarchy (`A` abstract, `B` and `C` variants) managed through
exclusive and reference-counted shared handles, and a gallery of three
string-to-string callables.

Streams are modelled as the string of text written so far; exceptions as
`Except`; machine integers as `Int` (no arithmetic here ever overflows);
the indeterminate content of uninitialized memory as an explicit parameter.
-/

namespace Potpourri

/-! ## `Vec<T, N>` (potpourri.cpp lines 14-74)

`Vec<T, N>` stores exactly `N` elements of `T` in a C array `data[N]`;
we model the array as a list whose length is pinned to `N`. -/

structure Vec (T : Type) (N : Nat) where
  data : List T
  hsize : data.length = N

/-- Lines 21-27: the initializer-list constructor.  `il.size() != N` throws
`std::invalid_argument("Wrong number of arguments!")`; otherwise the list is
copied into `data`. -/
def Vec.ofList (T : Type) (N : Nat) (il : List T) : Except String (Vec T N) :=
  if h : il.length = N then
    .ok ⟨il, h⟩
  else
    .error "Wrong number of arguments!"

/-- Unchecked element read `data[i]` (lines 36-37); out-of-range reads are
undefined behaviour in the source, modelled by the `default` element.  All
uses below stay in range. -/
def Vec.get [Inhabited T] (v : Vec T N) (i : Nat) : T :=
  v.data.getD i default

/-- Lines 40-50, `operator+`: throws
`std::invalid_argument("Vector size mismatch!")` when `N != M`; otherwise a
default-constructed `Vec<U, M>` has every slot `i < M` assigned
`data[i] + v[i]` by the loop, modelled as building the list of those `M`
sums in index order. -/
def Vec.add [Inhabited T] [Add T] (a : Vec T N) (b : Vec T M) :
    Except String (Vec T M) :=
  if N ≠ M then
    .error "Vector size mismatch!"
  else
    .ok ⟨(List.range M).map (fun i => a.get i + b.get i), by simp⟩

/-- Lines 53-63, `operator*` (named "dot product" in a comment but
element-wise in the body): identical to `operator+` with `*` in place
of `+`. -/
def Vec.mul [Inhabited T] [Mul T] (a : Vec T N) (b : Vec T M) :
    Except String (Vec T M) :=
  if N ≠ M then
    .error "Vector size mismatch!"
  else
    .ok ⟨(List.range M).map (fun i => a.get i * b.get i), by simp⟩

/-- Lines 65-73, `operator<<`: writes a left bracket, then elements `0 .. N-2` each
followed by a comma and a space, then element `N-1` and a right bracket.  The first component is
the stream after the writes (the stream argument is a reference, so the
text is written regardless); the second is the value returned by the
function body, which contains no return statement, hence `none`. -/
def Vec.printTo [Inhabited T] (toStr : T → String) (os : String)
    (v : Vec T N) : String × Option String :=
  let os := os ++ "["
  let os := (List.range (N - 1)).foldl
    (fun acc i => acc ++ toStr (v.get i) ++ ", ") os
  let os := os ++ toStr (v.get (N - 1)) ++ "]"
  (os, none)

/-! ## Input validator (lines 142-157)

`std::cin >> s` reads one whitespace-delimited token (empty on absent
input); `s.length()` counts bytes, modelled by `String.utf8ByteSize`.
The try block throws `std::out_of_range("Out of range")` for length
over 10, `std::invalid_argument("invalid argument")` for length under 5,
and otherwise prints the token; each catch handler prints `e.what()`. -/

inductive ValErr
  | outOfRange (msg : String)
  | invalidArgument (msg : String)
deriving DecidableEq

/-- Lines 145-152: the body of the try block, producing either the single
line it prints or the exception it throws. -/
def tryBody (s : String) : Except ValErr String :=
  if s.utf8ByteSize > 10 then
    .error (.outOfRange "Out of range")
  else if s.utf8ByteSize < 5 then
    .error (.invalidArgument "invalid argument")
  else
    .ok s

/-- Lines 145-157: the try block together with its two catch handlers;
the result is the one line printed. -/
def validator (s : String) : String :=
  match tryBody s with
  | .ok line => line
  | .error (.outOfRange m) => m
  | .error (.invalidArgument m) => m

/-! ## The polymorphic hierarchy `A`, `B`, `C` (lines 76-105) -/

/-- Line 90: `B(int x) : x(x)` — the member is initialized from the
constructor parameter. -/
structure BFields where
  x : Int
deriving DecidableEq

def B.construct (x : Int) : BFields := { x := x }

/-- Line 99: `C(int x) : y(y)` — the mem-initializer reads the member `y`
itself during its own initialization, so the member keeps whatever
indeterminate content it had before construction, here the explicit
parameter `yInit`; the constructor parameter `x` is never read. -/
structure CFields where
  y : Int
deriving DecidableEq

def C.construct (yInit : Int) (x : Int) : CFields := { y := yInit }

/-- The dynamic type of a managed object: variant `B` (lines 87-96) or
variant `C` (lines 97-105), each carrying its one integer field. -/
inductive Shape
  | B (fields : BFields)
  | C (fields : CFields)
deriving DecidableEq

/-- Lines 92-95 and 101-104: the virtual `foo` override each variant
prints. -/
def Shape.foo : Shape → String
  | .B _ => "B.foo()"
  | .C _ => "C.foo()"

/-- Line 79: `~A()` is declared without `virtual`. -/
def aDtorVirtual : Bool := false

/-- `delete` on an `A*` (the default deleter of `unique_ptr<A>`, and the
deleter captured by `shared_ptr<A>` when constructed from an `A*`):
the destructor is selected by the static type `A`, so the derived
destructor (lines 91, 100) runs first only when `~A()` is virtual; either
way `~A()` (line 79) runs. -/
def destroyViaBase (s : Shape) : List String :=
  if aDtorVirtual then
    (match s with
     | .B _ => ["~B()"]
     | .C _ => ["~C()"]) ++ ["~A()"]
  else
    ["~A()"]

/-! ## The ownership scenario in `main` (lines 179-212)

`y2` and `y3` stand for the indeterminate contents that the fields of
the two `C` objects end up with (their constructor arguments 5 and 6 are never read). -/

/-- Lines 179-183: the exclusively-owned collection after its four
push_backs of `B(3)`, `B(4)`, `C(5)`, `C(6)`; a slot is `some` while the
`unique_ptr` owns its object. -/
def vuaInitial (y2 y3 : Int) : List (Option Shape) :=
  [some (.B (B.construct 3)), some (.B (B.construct 4)),
   some (.C (C.construct y2 5)), some (.C (C.construct y3 6))]

/-- Line 201 moves `vua[1]` into `takes_ownership`, emptying slot 1;
line 204 calls `vua[2].release()`, emptying slot 2 (the raw pointer seeds
the fresh shared handle). -/
def vuaAfterTransfers (y2 y3 : Int) : List (Option Shape) :=
  ((vuaInitial y2 y3).set 1 none).set 2 none

/-- Lines 206-212: re-iterating the owned collection; an empty slot prints
"The ownership has moved away!", a live one invokes `foo`. -/
def reiterateOutput (y2 y3 : Int) : List String :=
  (vuaAfterTransfers y2 y3).map fun slot =>
    match slot with
    | none => "The ownership has moved away!"
    | some ap => ap.foo

/-! ## Shared-ownership hand-off (lines 112-124, 204)

A reference-counted group is modelled by its current use count; a
by-value `shared_ptr` parameter copy-constructed from an lvalue raises the
count on entry into the call and lowers it again when the parameter is
destroyed at return. -/

/-- Lines 112-116, `shared_ownership2`: `entry` is the count of the group with
the parameter `s_ptr` included; the first component lists the counts its
`use_count()` calls print, the second is the count after `s_ptr` is
destroyed on return. -/
def shared_ownership2 (entry : Nat) : List Nat × Nat :=
  ([entry], entry - 1)

/-- Lines 118-124, `shared_ownership`: prints its count, copy-constructs an
argument handle for `shared_ownership2` (raising the count by one for that
call), then prints the count again after the parameter of the callee is gone,
and destroys its own parameter on return. -/
def shared_ownership (entry : Nat) : List Nat × Nat :=
  let first := [entry]
  let inner := shared_ownership2 (entry + 1)
  (first ++ inner.1 ++ [inner.2], inner.2 - 1)

/-- Line 204: `std::shared_ptr<A>(vua[2].release())` is a fresh shared
handle with use count 1; as a prvalue argument it materializes directly as
the by-value parameter of `shared_ownership` (guaranteed copy elision in C++17;
before C++17 it would be move-constructed), neither of which changes the
count, so `shared_ownership` starts with count 1.  The value is the list
of counts printed by the whole call. -/
def mainUseCounts : List Nat := (shared_ownership 1).1

/-- The managed `Shape` objects destroyed through base-typed owning
handles during the scripted run, in order: `B(4)` when `takes_ownership`
returns (line 110), `C(5)` when the last shared handle is released (return
of `shared_ownership`, line 124), and `B(3)`, `C(6)` when the owned
collection is destroyed at the end of `main`.  The raw-pointer collection
`vpa` (lines 185-190) is never destroyed. -/
def managedDestroyed (y2 y3 : Int) : List Shape :=
  [.B (B.construct 4), .C (C.construct y2 5),
   .B (B.construct 3), .C (C.construct y3 6)]

/-- Everything printed by destructors of managed objects during the run. -/
def destructionLog (y2 y3 : Int) : List String :=
  (managedDestroyed y2 y3).flatMap destroyViaBase

/-! ## Closure gallery (lines 127-135, 217-250) -/

/-- Line 221: the lambda `foo`, capturing `greet` by reference; `greet` is
never modified, so its value at call time is the string bound at line 217. -/
def fooLambda (greet : String) (name : String) : String := greet ++ name

/-- Lines 224-230: the lambda `bar`, capturing `secret` by value and
streaming `name`, the literal text, the captured integer and a closing parenthesis into an
`ostringstream`. -/
def barLambda (secret : Int) (name : String) : String :=
  name ++ "got the secret (" ++ toString secret ++ ")"

instance : Add String := ⟨String.append⟩

/-- Lines 127-135: the callable object template `Adder<T>`, holding `y`
captured at construction. -/
structure Adder (T : Type) where
  y : T

/-- Line 134: `operator()` returns `y + t`. -/
def Adder.call [Add T] (a : Adder T) (t : T) : T := a.y + t

/-- Line 241. -/
def john : String := "John Doe"

/-- Lines 234-246: `fv` holds `foo`, `bar`, `baz` in insertion order; the
first loop invokes each with `john` and collects the results into `sv` in
that order (the diagnostic marker "a" printed per call is not part of the
collected outputs). -/
def sv : List String :=
  [fooLambda "Hello, ", barLambda 42,
   (Adder.mk "Bye, ").call].map fun f => f john

/-- Lines 248-250: the second loop prints each collected string, in the
order of `sv`. -/
def galleryPrinted : List String := sv

/-! ## Concrete vectors used to exercise the `Vec` operations -/

def v3a : Vec Int 3 := ⟨[1, 2, 3], rfl⟩

def v3b : Vec Int 3 := ⟨[10, 20, 30], rfl⟩

def v4a : Vec Int 4 := ⟨[1, 2, 3, 4], rfl⟩

def v3sum : Vec Int 3 := ⟨[11, 22, 33], rfl⟩

/-! ## Theorems -/

/-- Reading index `i < M` out of the list built for the result of the
element-wise loops. -/
theorem getD_range_map {T : Type} (f : Nat → T) (d : T) {i M : Nat}
    (h : i < M) : ((List.range M).map f).getD i d = f i := by
  simp [List.getD_eq_getElem?_getD, List.getElem?_map, List.getElem?_range, h]

/-- Claim C1, counterexample: the spec expects the observed share counts
2, 3, 2, but the temporary shared handle (count 1) materializes directly as
the parameter of `shared_ownership`, so the code prints 1, 2, 1. -/
theorem mainUseCounts_ne_claimed : mainUseCounts ≠ [2, 3, 2] := by decide

/-- Claim C1, amended: releasing the third entry into a shared handle and
passing it through the two nested routines prints use counts 1 inside the
outer routine, 2 inside the nested routine, and 1 again after the nested
call returns. -/
theorem mainUseCounts_eq : mainUseCounts = [1, 2, 1] := by decide

/-- Claim C2, counterexample: re-iterating after the transfers does not
leave index 2 live — `release()` emptied that slot too, so the claimed
output (only index 1 reported as moved away) differs from what the loop
prints. -/
theorem reiterate_ne_claimed :
    reiterateOutput 0 0 =
      ["B.foo()", "The ownership has moved away!",
       "The ownership has moved away!", "C.foo()"] ∧
    reiterateOutput 0 0 ≠
      ["B.foo()", "The ownership has moved away!", "C.foo()", "C.foo()"] := by
  decide

/-- Claim C2, amended: after the move of slot 1 and the release of slot 2,
re-iterating reports indices 1 and 2 as "The ownership has moved away!"
while indices 0 and 3 invoke their action. -/
theorem reiterate_spec (y2 y3 : Int) :
    reiterateOutput y2 y3 =
      ["B.foo()", "The ownership has moved away!",
       "The ownership has moved away!", "C.foo()"] := rfl

/-- Claim C3, counterexample: with indeterminate prior content 7 and caller
argument 5, the constructed field holds 7, not the default value 0 of the
integer type, so "holds the type's default value" fails on the code. -/
theorem c_construct_not_default :
    (C.construct 7 5).y = 7 ∧ (C.construct 7 5).y ≠ 0 := by decide

/-- Claim C3, amended: the `C` constructor assigns the field from its own
indeterminate prior content, never from the incoming parameter, so the
constructed field is independent of the caller-supplied value (but it is
indeterminate, not guaranteed to be the default value). -/
theorem c_construct_ignores_param (yInit x x' : Int) :
    (C.construct yInit x).y = yInit ∧
    C.construct yInit x = C.construct yInit x' := ⟨rfl, rfl⟩

/-- Claim C4: for vectors `a` of size `N` and `b` of size `M`, both `Add`
and `Multiply` fail iff `N ≠ M`, with message "Vector size mismatch!" and
no result; when they succeed, every element of the result is the pointwise
sum, respectively product. -/
theorem vec_add_mul_spec {T : Type} [Inhabited T] [Add T] [Mul T]
    {N M : Nat} (a : Vec T N) (b : Vec T M) :
    ((∃ e, a.add b = .error e) ↔ N ≠ M) ∧
    ((∃ e, a.mul b = .error e) ↔ N ≠ M) ∧
    (N ≠ M → a.add b = .error "Vector size mismatch!" ∧
             a.mul b = .error "Vector size mismatch!") ∧
    (∀ r, a.add b = .ok r → ∀ i, i < M → r.get i = a.get i + b.get i) ∧
    (∀ r, a.mul b = .ok r → ∀ i, i < M → r.get i = a.get i * b.get i) := by
  by_cases h : N = M
  · subst h
    refine ⟨by simp [Vec.add], by simp [Vec.mul], by simp, ?_, ?_⟩
    · rintro r hr i hi
      rw [Vec.add, if_neg (by simp)] at hr
      cases hr
      exact getD_range_map _ _ hi
    · rintro r hr i hi
      rw [Vec.mul, if_neg (by simp)] at hr
      cases hr
      exact getD_range_map _ _ hi
  · refine ⟨by simp [Vec.add, h], by simp [Vec.mul, h], fun _ => ?_, ?_, ?_⟩
    · exact ⟨by rw [Vec.add, if_pos h], by rw [Vec.mul, if_pos h]⟩
    · rintro r hr
      rw [Vec.add, if_pos h] at hr
      cases hr
    · rintro r hr
      rw [Vec.mul, if_pos h] at hr
      cases hr

/-- Claim C4, witness: a 3-vector against a 4-vector raises the mismatch
error; adding two 3-vectors gives pointwise sums. -/
theorem vec_add_mul_spec_witness :
    v3a.add v4a = .error "Vector size mismatch!" ∧
    v3sum.get 1 = v3a.get 1 + v3b.get 1 :=
  ⟨((vec_add_mul_spec v3a v4a).2.2.1 (by decide)).1,
   (vec_add_mul_spec v3a v3b).2.2.2.1 v3sum rfl 1 (by decide)⟩

/-- Claim C5: constructing a `Vec<T, N>` from an initializer list fails iff
the list length differs from `N`, with message
"Wrong number of arguments!"; on success the vector holds exactly the
listed elements in order. -/
theorem vec_ofList_spec (T : Type) (N : Nat) (il : List T) :
    ((∃ e, Vec.ofList T N il = .error e) ↔ il.length ≠ N) ∧
    (il.length ≠ N → Vec.ofList T N il = .error "Wrong number of arguments!") ∧
    (∀ v, Vec.ofList T N il = .ok v → v.data = il) := by
  by_cases h : il.length = N
  · refine ⟨by simp [Vec.ofList, h], by simp [h], ?_⟩
    rintro v hv
    rw [Vec.ofList, dif_pos h] at hv
    cases hv
    rfl
  · refine ⟨by simp [Vec.ofList, h], fun _ => by rw [Vec.ofList, dif_neg h], ?_⟩
    rintro v hv
    rw [Vec.ofList, dif_neg h] at hv
    cases hv

/-- Claim C5, witness: a 1-element list is rejected for `N = 2` with the
expected message; a 2-element list is stored as given. -/
theorem vec_ofList_spec_witness :
    Vec.ofList Int 2 [5] = .error "Wrong number of arguments!" ∧
    (Vec.mk [5, 6] rfl : Vec Int 2).data = [5, 6] :=
  ⟨(vec_ofList_spec Int 2 [5]).2.1 (by decide),
   (vec_ofList_spec Int 2 [5, 6]).2.2 ⟨[5, 6], rfl⟩ rfl⟩

/-- Claim C6: a token of byte length in `[5, 10]` is printed unchanged, one
longer than 10 prints exactly "Out of range", one shorter than 5 (the empty
token included) prints exactly "invalid argument"; `validator` returns the
single line printed, so exactly one outcome occurs. -/
theorem validator_spec (s : String) :
    (5 ≤ s.utf8ByteSize ∧ s.utf8ByteSize ≤ 10 → validator s = s) ∧
    (10 < s.utf8ByteSize → validator s = "Out of range") ∧
    (s.utf8ByteSize < 5 → validator s = "invalid argument") := by
  refine ⟨?_, ?_, ?_⟩
  · rintro ⟨h1, h2⟩
    have hgt : ¬ s.utf8ByteSize > 10 := by omega
    have hlt : ¬ s.utf8ByteSize < 5 := by omega
    simp [validator, tryBody, hgt, hlt]
  · intro h
    simp [validator, tryBody, h]
  · intro h
    have hgt : ¬ s.utf8ByteSize > 10 := by omega
    simp [validator, tryBody, hgt, h]

/-- Claim C6, witness: the three outcomes at concrete tokens of lengths 5,
13 and 2. -/
theorem validator_spec_witness :
    validator "hello" = "hello" ∧
    validator "verylongtoken" = "Out of range" ∧
    validator "hi" = "invalid argument" :=
  ⟨(validator_spec "hello").1 (by decide),
   (validator_spec "verylongtoken").2.1 (by decide),
   (validator_spec "hi").2.2 (by decide)⟩

/-- Claim C7: the three callables invoked in insertion order on "John Doe"
with the reference-captured greeting "Hello, ", the value-captured secret
42 and the object field "Bye, " collect exactly
"Hello, John Doe", "John Doegot the secret (42)", "Bye, John Doe", and the
second loop prints them in that same order. -/
theorem gallery_spec :
    sv = ["Hello, John Doe", "John Doegot the secret (42)",
          "Bye, John Doe"] ∧
    galleryPrinted = sv := ⟨rfl, rfl⟩

/-- Claim C8, evaluation at the failing input: printing the 3-vector
`[1, 2, 3]` writes the bracketed comma-separated listing to the stream,
but the operator body contains no return statement, so no stream value is
returned for chaining (second component `none`, against the declared
`std::ostream&` result). -/
theorem vec_print_no_return :
    v3a.printTo toString "" = ("[1, 2, 3]", none) := rfl

/-- Claim C10: the destructor of the abstract base is non-virtual, so every
managed object destroyed through a base-typed owning handle runs only
`~A()`; the full destruction log of the scripted run is four "~A()" lines
and never contains "~B()" or "~C()", whatever indeterminate contents the
`C` fields hold. -/
theorem dtor_static_dispatch (y2 y3 : Int) :
    (∀ s : Shape, destroyViaBase s = ["~A()"]) ∧
    destructionLog y2 y3 = ["~A()", "~A()", "~A()", "~A()"] ∧
    "~B()" ∉ destructionLog y2 y3 ∧
    "~C()" ∉ destructionLog y2 y3 := by
  refine ⟨fun s => ?_, rfl, ?_, ?_⟩
  · cases s <;> rfl
  · show ¬ _ ∈ ([_, _, _, _] : List String)
    simp [destructionLog, managedDestroyed, destroyViaBase, aDtorVirtual]
  · show ¬ _ ∈ ([_, _, _, _] : List String)
    simp [destructionLog, managedDestroyed, destroyViaBase, aDtorVirtual]

end Potpourri
